import Mathlib

/-!
Verification of `shrenk.py` (createcandle/shrenk): a script that shrinks the
last ext-family partition of a disk image and truncates the backing file.

The development shallowly embeds the script's pure computations (size
planning, the shrink decision, the fdisk-output pattern matching, the layout
bar renderer, the menu dispatch) as Lean functions, and embeds the
orchestration of `main` as a trace-producing computation over an explicit
environment of external-command results, so resource (loop-device)
lifetime can be stated and checked on every path.
-/

namespace Shrenk

/-! ## Character classes

`isWS` models Python's regex class `\s` (and `str.strip`'s notion of
whitespace for the ASCII range): space, tab, newline, carriage return,
vertical tab, form feed.  `isDigitCh` models `\d` for ASCII digits. -/

def isWS (c : Char) : Bool :=
  decide (c.toNat = 32 ∨ c.toNat = 9 ∨ c.toNat = 10 ∨ c.toNat = 13 ∨
          c.toNat = 11 ∨ c.toNat = 12)

def isDigitCh (c : Char) : Bool :=
  decide (48 ≤ c.toNat ∧ c.toNat ≤ 57)

/-- Maximal run of characters satisfying `p` from the front, together with
the remainder (the deterministic core of a greedy `X+` regex item). -/
def takeRun (p : Char → Bool) : List Char → List Char × List Char
  | [] => ([], [])
  | c :: cs =>
    if p c then ((c :: (takeRun p cs).1), (takeRun p cs).2)
    else ([], c :: cs)

/-! ## The fdisk-line pattern of `get_partition_start`

`shrenk.py` line 95 builds the pattern
`{loop_dev}p{part_num}\s+\*?\s+(\d+)\s+(\d+)` and calls `regex.search`.
Because the character classes `\s`, `\d` and the literal `*` are pairwise
disjoint, Python's backtracking search is equivalent to the deterministic
maximal-munch matcher below; `search` semantics (leftmost starting
position admitting a full match) is `reSearch`. -/

/-- The two captured groups `(\d+)\s+(\d+)` after the whitespace/star gap. -/
def captureGroups (cs : List Char) : Option (List Char × List Char) :=
  if (takeRun isDigitCh cs).1.length = 0 then none
  else
    if (takeRun isWS (takeRun isDigitCh cs).2).1.length = 0 then none
    else
      if (takeRun isDigitCh ((takeRun isWS (takeRun isDigitCh cs).2).2)).1.length = 0 then none
      else
        some ((takeRun isDigitCh cs).1,
              (takeRun isDigitCh ((takeRun isWS (takeRun isDigitCh cs).2).2)).1)

/-- After the maximal leading whitespace run `w1`, dispatch on the next
character: a literal `*` needs `w1` nonempty plus more whitespace before
the groups; otherwise the two `\s+` items must both have matched inside
`w1`, so `w1` needs length at least 2. -/
def matchTailAux (w1 : List Char) : List Char → Option (List Char × List Char)
  | [] => none
  | c :: r2 =>
    if c = '*' then
      if w1.length = 0 then none
      else
        if (takeRun isWS r2).1.length = 0 then none
        else captureGroups (takeRun isWS r2).2
    else
      if 2 ≤ w1.length then captureGroups (c :: r2)
      else none

/-- Matches `\s+\*?\s+(\d+)\s+(\d+)`: either whitespace, a literal `*`,
more whitespace, then the groups, or (no star) at least two whitespace
characters then the groups.  Because `\s`, `\d` and `*` are disjoint this
deterministic reading is equivalent to the backtracking one. -/
def matchTail (cs : List Char) : Option (List Char × List Char) :=
  matchTailAux (takeRun isWS cs).1 (takeRun isWS cs).2

/-- Match a literal character sequence at the front, returning the rest. -/
def matchLit : List Char → List Char → Option (List Char)
  | [], rest => some rest
  | _ :: _, [] => none
  | l :: ls, c :: cs => if c = l then matchLit ls cs else none

/-- Full pattern anchored at the current position. -/
def matchAt (lit : List Char) (cs : List Char) : Option (List Char × List Char) :=
  match matchLit lit cs with
  | none => none
  | some rest => matchTail rest

/-- `re.search`: try each starting position left to right. -/
def reSearch (lit : List Char) : List Char → Option (List Char × List Char)
  | [] => matchAt lit []
  | c :: cs =>
    match matchAt lit (c :: cs) with
    | some r => some r
    | none => reSearch lit cs

/-- Models Python `int(...)` applied to a captured digit group. -/
def digitsToNat (ds : List Char) : Nat :=
  ds.foldl (fun acc c => acc * 10 + (c.toNat - 48)) 0

/-- `get_partition_start` (shrenk.py lines 91-101): search the `fdisk -l`
output for the line of partition `part_num` of `loop_dev` and return its
(start sector, end sector); `none` models the `RuntimeError` raised when
the pattern is absent.  As in the source the device name is used literally
in the pattern (it contains no regex metacharacters for `/dev/loopN`). -/
def get_partition_start (loop_dev : String) (part_num : Nat) (fdisk_output : String) :
    Option (Nat × Nat) :=
  match reSearch (loop_dev ++ "p" ++ toString part_num).toList fdisk_output.toList with
  | some r => some (digitsToNat r.1, digitsToNat r.2)
  | none => none

/-! ## Sample fdisk listings for the partition-number collision property

One fdisk-style line per partition, `name`, at least two spaces (fdisk
aligns columns), start sector, one space, end sector, newline.  The digit
strings are arbitrary parameters. -/

/-- fdisk line for partition 1 of /dev/loop0. -/
def line_p1 (s1 e1 : List Char) : List Char :=
  ['/', 'd', 'e', 'v', '/', 'l', 'o', 'o', 'p', '0', 'p', '1', ' ', ' ', ' '] ++
    (s1 ++ (' ' :: (e1 ++ ['\n'])))

/-- fdisk line for partition 11 of /dev/loop0. -/
def line_p11 (s11 e11 : List Char) : List Char :=
  ['/', 'd', 'e', 'v', '/', 'l', 'o', 'o', 'p', '0', 'p', '1', '1', ' ', ' ', ' '] ++
    (s11 ++ (' ' :: (e11 ++ ['\n'])))

/-- Listing with partition 11's line before partition 1's: searching for
partition 1 must skip the whole p11 line. -/
def listing11First (s1 e1 s11 e11 : List Char) : List Char :=
  line_p11 s11 e11 ++ line_p1 s1 e1

/-- Listing in natural order (partition 1 first): searching for
partition 11 must skip the whole p1 line. -/
def listing1First (s1 e1 s11 e11 : List Char) : List Char :=
  line_p1 s1 e1 ++ line_p11 s11 e11

/-! ## Size planning (shrenk.py lines 262-291) -/

/-- `SAFETY_MB = 100` (line 262). -/
def SAFETY_MB : Nat := 100

/-- `extra_blocks = (margin_bytes + block_size - 1) // block_size`
(line 263, with `margin_bytes = SAFETY_MB * 1024 * 1024`): ceiling
division of the safety margin by the filesystem block size. -/
def extra_blocks (safety_margin_bytes block_size : Nat) : Nat :=
  (safety_margin_bytes + block_size - 1) / block_size

/-- `target_blocks = min_blocks + extra_blocks` (line 264). -/
def target_blocks (min_blocks safety_margin_bytes block_size : Nat) : Nat :=
  min_blocks + extra_blocks safety_margin_bytes block_size

/-- The derived size plan of one run (spec §4.3 / lines 262-291). -/
structure SizePlan where
  extraBlocks : Nat
  targetBlocks : Nat
  targetBytes : Nat
  targetSectors : Nat
  newEndSector : Nat
deriving DecidableEq

/-- The full size-planning computation of `main` (lines 262-291):
`fs_size_bytes = target_blocks * block_size` (lines 268/285),
`fs_size_sectors = (fs_size_bytes + sector_size - 1) // sector_size`
(line 289, ceiling division) and
`new_end_sector = start_sector + fs_size_sectors - 1` (line 290).
A pure, deterministic function. -/
def size_plan (min_blocks block_size sector_size start_sector safety_margin_bytes : Nat) :
    SizePlan :=
  ⟨extra_blocks safety_margin_bytes block_size,
   target_blocks min_blocks safety_margin_bytes block_size,
   target_blocks min_blocks safety_margin_bytes block_size * block_size,
   (target_blocks min_blocks safety_margin_bytes block_size * block_size + sector_size - 1) / sector_size,
   start_sector + (target_blocks min_blocks safety_margin_bytes block_size * block_size + sector_size - 1) / sector_size - 1⟩

/-- The pure core of `can_shrink` (shrenk.py lines 216-226), after the
device reads: `current_bytes = (end_sector - start_sector + 1) * sector_size`
and the result `current_bytes - target_bytes > sector_size`.  Python
integers are unbounded and the difference may be negative, so the
comparison is over `Int`. -/
def can_shrink (start_sector end_sector sector_size target_bytes : Nat) : Bool :=
  decide ((sector_size : Int) <
    ((end_sector : Int) - (start_sector : Int) + 1) * (sector_size : Int) - (target_bytes : Int))

/-! ## resize_filesystem (shrenk.py lines 176-181) -/

/-- The command issued by `resize_filesystem(part_dev, blocks)`.  The
source guards with Python truthiness `if blocks:`, so both `None` and `0`
fall through to the no-argument `resize2fs` call (resize to the enclosing
partition's size). -/
def resize_filesystem_cmd (part_dev : String) (blocks : Option Nat) : String :=
  match blocks with
  | some b =>
    if b ≠ 0 then "sudo resize2fs " ++ part_dev ++ " " ++ toString b
    else "sudo resize2fs " ++ part_dev
  | none => "sudo resize2fs " ++ part_dev

/-! ## Layout renderer (shrenk.py lines 125-152)

Only the pure bar computation is modelled here (the effectful attach /
detach around it is part of the orchestration model below).  `none`
models the early `print("[layout] No partitions found to display.")`
return taken before `total_sectors` is ever computed — so no division
happens at all in the zero-partition case.  Python computes
`int(start * bar_width / total_sectors)` with exact-integer operands and
correctly rounded float division; in the cases evaluated by the theorems
below the rational quotient is an exact integer, where that expression
coincides with `Nat` floor division. -/

/-- Write `d` at indices `left ≤ i < right` of the bar (the
`for i in range(left, min(right, bar_width)): bar[i] = str(num % 10)`
loop, with `right` already clamped by the caller). -/
def paintFrom (left right : Nat) (d : Char) : Nat → List Char → List Char
  | _, [] => []
  | i, c :: cs =>
    (if left ≤ i ∧ i < right then d else c) :: paintFrom left right d (i + 1) cs

/-- Paint one partition `(num, start, end)` onto the bar:
`left = int(start * bar_width / total)`,
`right = max(left + 1, int((end + 1) * bar_width / total))`. -/
def paintPartition (bar_width total : Nat) (bar : List Char) (part : Nat × Nat × Nat) :
    List Char :=
  paintFrom (part.2.1 * bar_width / total)
    (min (max (part.2.1 * bar_width / total + 1) ((part.2.2 + 1) * bar_width / total)) bar_width)
    (Nat.digitChar (part.1 % 10)) 0 bar

/-- The bar produced by `display_image_layout` from the parsed partition
triples `(num, start, end)`:  `total_sectors = max end + 1`, bar of
`bar_width` spaces, each partition painted in turn. -/
def display_image_layout_bar (parts : List (Nat × Nat × Nat)) (bar_width : Nat) :
    Option (List Char) :=
  if parts.isEmpty then none
  else
    some (parts.foldl
      (paintPartition bar_width ((parts.map (fun p => p.2.2)).foldl max 0 + 1))
      (List.replicate bar_width ' '))

/-! ## Interactive menu (shrenk.py lines 342-361) -/

/-- Python `str.strip()` restricted to the ASCII whitespace the script can
receive from `input()`. -/
def pyStrip (s : String) : String :=
  String.mk (((s.toList.dropWhile isWS).reverse.dropWhile isWS).reverse)

/-- Outcome of the `while True` menu loop: which branch ran.  `exitZero`
is the `sys.exit(0)` branch (choice 3/q/Q, image untouched), `ranLayout`
and `ranResize` are choices 1 and 2 (each followed by `break`),
`pending` means the supplied input list was exhausted re-prompting. -/
inductive MenuOutcome where
  | ranLayout : MenuOutcome
  | ranResize : MenuOutcome
  | exitZero : MenuOutcome
  | pending : MenuOutcome
deriving DecidableEq

/-- The menu loop over a list of successive `input()` results:
`choice = input(...).strip()`; `"1"` runs the layout display, `"2"` runs
the resize, membership in `{"3", "q", "Q"}` exits with status 0, anything
else prints "Invalid selection" and re-prompts. -/
def menu_loop : List String → MenuOutcome
  | [] => MenuOutcome.pending
  | s :: rest =>
    if pyStrip s = "1" then MenuOutcome.ranLayout
    else if pyStrip s = "2" then MenuOutcome.ranResize
    else if pyStrip s = "3" ∨ pyStrip s = "q" ∨ pyStrip s = "Q" then MenuOutcome.exitZero
    else menu_loop rest

/-! ## Orchestration model of `main` (shrenk.py lines 228-334)

`main` sequences external commands.  Each command's outcome is a field of
an `Env` record (one field per call site, in program order — `main`
deliberately re-reads partition data after each structural change, so
the three `get_partition_start` sites are separate fields).  A run is a
state computation threading the list of observable events (loop attach /
detach, the destructive resize and truncate commands), so that the trace
is retained even when the run aborts with an error — exactly what is
needed to reason about cleanup on failure paths. -/

/-- Errors are the `RuntimeError` messages of the script. -/
abbrev Err := String

/-- Observable effects of one run. -/
inductive Event where
  | attach : String → Event
  | detach : String → Event
  | resizeFs : String → Nat → Event
  | resizePart : String → Nat → Nat → Event
  | truncate : Nat → Event
deriving DecidableEq

/-- Results of the external commands of one `main` run, in program order.
Fields 1-14 are the first attached segment (the `try` body plus its
`finally` detach, lines 236-301), 15-20 the reattach/truncate segment
(lines 303-329), 21-24 the final `display_image_layout` (line 332). -/
structure Env where
  attach1R : Except Err String
  partNumsR : Except Err (List Nat)
  wait1R : Except Err Unit
  fsTypeR : Except Err Unit
  fsckR : Except Err Unit
  minBlocksR : Except Err Nat
  blockSizeR : Except Err Nat
  partStart1R : Except Err (Nat × Nat)
  sectorSize1R : Except Err Nat
  resizeFsR : Except Err Unit
  partStart2R : Except Err (Nat × Nat)
  sectorSize2R : Except Err Nat
  resizePartR : Except Err Unit
  detach1R : Except Err Unit
  attach2R : Except Err String
  wait2R : Except Err Unit
  partStart3R : Except Err (Nat × Nat)
  sectorSize3R : Except Err Nat
  detach2R : Except Err Unit
  truncateR : Except Err Unit
  attach3R : Except Err String
  sectorSize4R : Except Err Nat
  fdiskR : Except Err Unit
  detach3R : Except Err Unit

/-- A run step: reads/extends the event trace and may fail.  The trace is
kept on failure (unlike `StateT` over `Except`). -/
def M (α : Type) : Type := List Event → Except Err α × List Event

def pureM {α : Type} (a : α) : M α := fun t => (Except.ok a, t)

def bindM {α β : Type} (m : M α) (f : α → M β) : M β := fun t =>
  match m t with
  | (Except.ok a, t1) => f a t1
  | (Except.error e, t1) => (Except.error e, t1)

def liftE {α : Type} (r : Except Err α) : M α := fun t => (r, t)

def emit (ev : Event) : M Unit := fun t => (Except.ok (), t ++ [ev])

/-- Python `try body finally cleanup`: the cleanup runs on both exits; an
exception raised by the cleanup replaces the in-flight one. -/
def protect {α : Type} (body : M α) (cleanup : M Unit) : M α := fun t =>
  match body t with
  | (Except.ok a, t1) =>
    match cleanup t1 with
    | (Except.ok _, t2) => (Except.ok a, t2)
    | (Except.error e2, t2) => (Except.error e2, t2)
  | (Except.error e, t1) =>
    match cleanup t1 with
    | (Except.ok _, t2) => (Except.error e, t2)
    | (Except.error e2, t2) => (Except.error e2, t2)

/-- `attach_loop_device`: on success the device becomes attached (the
partprobe/udevadm settle calls run with `check=False` and cannot raise). -/
def attachLoop (r : Except Err String) : M String :=
  bindM (liftE r) fun dev => bindM (emit (Event.attach dev)) fun _ => pureM dev

/-- `detach_loop_device`: only a successful `losetup -d` detaches. -/
def detachLoop (dev : String) (r : Except Err Unit) : M Unit :=
  bindM (liftE r) fun _ => emit (Event.detach dev)

/-- `f"{loop_dev}p{last_part_num}"`. -/
def part_dev_name (loop_dev : String) (num : Nat) : String :=
  loop_dev ++ "p" ++ toString num

/-- Python `max` over a list of partition numbers (callers guarantee
nonempty). -/
def maxNat (l : List Nat) : Nat := l.foldl max 0

/-- The `try` body of `main` (lines 237-296): inspect, plan, decide, then
resize filesystem and partition.  Returns `none` for the early
`return` when `can_shrink` is false, otherwise
`some (last_part_num, target_blocks, block_size)` — the values the
post-`finally` code of `main` still uses. -/
def mainBody (env : Env) (loop_dev : String) : M (Option (Nat × Nat × Nat)) :=
  bindM (liftE env.partNumsR) fun part_nums =>
  if part_nums.isEmpty then
    liftE (Except.error "No partitions found on the loop device.")
  else
    bindM (liftE env.wait1R) fun _ =>
    bindM (liftE env.fsTypeR) fun _ =>
    bindM (liftE env.fsckR) fun _ =>
    bindM (liftE env.minBlocksR) fun min_blocks =>
    bindM (liftE env.blockSizeR) fun block_size =>
    bindM (liftE env.partStart1R) fun se0 =>
    bindM (liftE env.sectorSize1R) fun ss0 =>
    if can_shrink se0.1 se0.2 ss0
        (target_blocks min_blocks (SAFETY_MB * 1024 * 1024) block_size * block_size) then
      bindM (emit (Event.resizeFs (part_dev_name loop_dev (maxNat part_nums))
        (target_blocks min_blocks (SAFETY_MB * 1024 * 1024) block_size))) fun _ =>
      bindM (liftE env.resizeFsR) fun _ =>
      bindM (liftE env.partStart2R) fun se1 =>
      bindM (liftE env.sectorSize2R) fun ss1 =>
      bindM (emit (Event.resizePart loop_dev (maxNat part_nums)
        (se1.1 + (target_blocks min_blocks (SAFETY_MB * 1024 * 1024) block_size * block_size
          + ss1 - 1) / ss1 - 1))) fun _ =>
      bindM (liftE env.resizePartR) fun _ =>
      pureM (some (maxNat part_nums,
        target_blocks min_blocks (SAFETY_MB * 1024 * 1024) block_size, block_size))
    else
      pureM none

/-- `display_image_layout` (lines 125-152): attach, read sector size and
run fdisk inside a `try`, detach in its `finally` (the bar rendering
itself is the pure `display_image_layout_bar` above). -/
def display_layout_m (env : Env) : M Unit :=
  bindM (attachLoop env.attach3R) fun dev =>
  protect
    (bindM (liftE env.sectorSize4R) fun _ =>
     bindM (liftE env.fdiskR) fun _ => pureM ())
    (detachLoop dev env.detach3R)

/-- `main` (lines 228-334): attach; `try` inspect/plan/resize `finally`
detach; on the no-shrink early return stop; otherwise reattach, re-read
start sector and sector size, detach, truncate (size from the re-read
start sector and the planned byte size), and display the final layout.
The code between the reattach and the pre-truncate detach runs OUTSIDE
any `try/finally`. -/
def main_m (env : Env) : M Unit :=
  bindM (attachLoop env.attach1R) fun loop_dev =>
  bindM (protect (mainBody env loop_dev) (detachLoop loop_dev env.detach1R)) fun cont =>
  match cont with
  | none => pureM ()
  | some info =>
    bindM (attachLoop env.attach2R) fun loop_dev2 =>
    bindM (liftE env.wait2R) fun _ =>
    bindM (liftE env.partStart3R) fun se2 =>
    bindM (liftE env.sectorSize3R) fun ss2 =>
    bindM (detachLoop loop_dev2 env.detach2R) fun _ =>
    bindM (emit (Event.truncate (se2.1 * ss2 + info.2.1 * info.2.2))) fun _ =>
    bindM (liftE env.truncateR) fun _ =>
    display_layout_m env

/-- Loop devices attached after processing one event (a multiset of
device names as a list). -/
def attachedStep (stack : List String) (ev : Event) : List String :=
  match ev with
  | Event.attach dev => dev :: stack
  | Event.detach dev => stack.erase dev
  | _ => stack

/-- Loop devices still attached at the end of a trace. -/
def attachedAfter (trace : List Event) : List String :=
  trace.foldl attachedStep []

/-- Events that neither attach nor detach a loop device. -/
def nonLoopEvent : Event → Bool
  | Event.attach _ => false
  | Event.detach _ => false
  | _ => true

/-- `m` only appends events satisfying `P` to the trace. -/
def EmitsOnly {α : Type} (m : M α) (P : Event → Bool) : Prop :=
  ∀ t, ∃ ex, (m t).2 = t ++ ex ∧ ∀ e ∈ ex, P e = true

/-- Environment where everything succeeds, a shrink is needed, but the
partition node never appears after the reattach (`wait_for_device`
times out at line 307). -/
def envLeak : Env :=
  ⟨Except.ok "/dev/loop0",                  -- attach
   Except.ok [1, 2],                        -- partition numbers
   Except.ok (), Except.ok (), Except.ok (),  -- wait, fstype, fsck
   Except.ok 251648, Except.ok 4096,        -- min blocks, block size
   Except.ok (2048, 4200000), Except.ok 512,  -- bounds and sector size (pre-shrink)
   Except.ok (),                            -- resize2fs
   Except.ok (2048, 4200000), Except.ok 512,  -- bounds and sector size (re-read)
   Except.ok (),                            -- parted resizepart
   Except.ok (),                            -- finally-detach
   Except.ok "/dev/loop1",                  -- reattach
   Except.error "Device /dev/loop1p2 did not appear within 10 seconds",  -- wait
   Except.ok (2048, 2220030), Except.ok 512,
   Except.ok (), Except.ok (),
   Except.ok "/dev/loop2", Except.ok 512, Except.ok (), Except.ok ()⟩

/-- Environment of a fully successful shrink run. -/
def envFull : Env :=
  ⟨Except.ok "/dev/loop0",
   Except.ok [1, 2],
   Except.ok (), Except.ok (), Except.ok (),
   Except.ok 251648, Except.ok 4096,
   Except.ok (2048, 4200000), Except.ok 512,
   Except.ok (),
   Except.ok (2048, 4200000), Except.ok 512,
   Except.ok (),
   Except.ok (),
   Except.ok "/dev/loop1",
   Except.ok (),
   Except.ok (2048, 2220030), Except.ok 512,
   Except.ok (), Except.ok (),
   Except.ok "/dev/loop2", Except.ok 512, Except.ok (), Except.ok ()⟩

/-- A second fully successful environment (same command results) used to
instantiate the truncate-size theorem. -/
def envFull2 : Env :=
  ⟨Except.ok "/dev/loop0",
   Except.ok [1, 2],
   Except.ok (), Except.ok (), Except.ok (),
   Except.ok 251648, Except.ok 4096,
   Except.ok (2048, 4200000), Except.ok 512,
   Except.ok (),
   Except.ok (2048, 4200000), Except.ok 512,
   Except.ok (),
   Except.ok (),
   Except.ok "/dev/loop1",
   Except.ok (),
   Except.ok (2048, 2220030), Except.ok 512,
   Except.ok (), Except.ok (),
   Except.ok "/dev/loop2", Except.ok 512, Except.ok (), Except.ok ()⟩

/-- Environment where the partition is already at target size:
`can_shrink` is false (current bytes = target bytes exactly). -/
def envNoShrink : Env :=
  ⟨Except.ok "/dev/loop0",
   Except.ok [2],
   Except.ok (), Except.ok (), Except.ok (),
   Except.ok 251648, Except.ok 4096,
   Except.ok (2048, 2220031), Except.ok 512,
   Except.ok (),
   Except.ok (2048, 2220031), Except.ok 512,
   Except.ok (),
   Except.ok (),
   Except.ok "/dev/loop1",
   Except.ok (),
   Except.ok (2048, 2220031), Except.ok 512,
   Except.ok (), Except.ok (),
   Except.ok "/dev/loop2", Except.ok 512, Except.ok (), Except.ok ()⟩

end Shrenk

namespace Shrenk

/-! ## Theorems -/

/-- C1 (counterexample): at minimumBlocks=251648, blockSize=4096,
safetyMarginBytes=104857600, sectorSize=512, startSector=2048 the code's
plan does NOT have targetSectors=2218000 and newEndSector=2220047: the
target byte size 1135607808 divides by 512 to 2217984 sectors exactly. -/
theorem size_plan_example_refuted :
    ¬ ((size_plan 251648 4096 512 2048 104857600).targetSectors = 2218000 ∧
       (size_plan 251648 4096 512 2048 104857600).newEndSector = 2220047) := by
  decide

/-- C1 (amended): the size-planning computation is a pure function, and
for minimumBlocks=251648, blockSize=4096, safetyMarginBytes=100 MiB,
sectorSize=512, startSector=2048 it yields extraBlocks=25600,
targetBlocks=277248, targetBytes=1135607808, targetSectors=2217984
(ceiling-rounded) and newEndSector=2220031 = 2048 + 2217984 - 1. -/
theorem size_plan_example :
    size_plan 251648 4096 512 2048 104857600 =
      ⟨25600, 277248, 1135607808, 2217984, 2220031⟩ := by
  decide

/-- C2: for every partition bounds, positive sector size and target byte
count, `can_shrink` is true iff `currentBytes - targetBytes > sectorSize`
where `currentBytes = (endSector - startSector + 1) * sectorSize`; it is
false whenever the difference is at most one sector, in particular at the
exact boundary `currentBytes = targetBytes + sectorSize`. -/
theorem can_shrink_boundary (start_sector end_sector sector_size target_bytes : Nat)
    (_h : 0 < sector_size) :
    (can_shrink start_sector end_sector sector_size target_bytes = true ↔
      ((end_sector : Int) - (start_sector : Int) + 1) * (sector_size : Int)
        - (target_bytes : Int) > (sector_size : Int)) ∧
    (((end_sector : Int) - (start_sector : Int) + 1) * (sector_size : Int)
        - (target_bytes : Int) ≤ (sector_size : Int) →
      can_shrink start_sector end_sector sector_size target_bytes = false) ∧
    (((end_sector : Int) - (start_sector : Int) + 1) * (sector_size : Int)
        = (target_bytes : Int) + (sector_size : Int) →
      can_shrink start_sector end_sector sector_size target_bytes = false) := by
  unfold can_shrink
  generalize ((end_sector : Int) - (start_sector : Int) + 1) * (sector_size : Int) = C
  refine ⟨(decide_eq_true_eq).to_iff, fun hle => decide_eq_false (by omega),
    fun heq => decide_eq_false (by omega)⟩

/-- C2 witness: with sectorSize=512 and 8 sectors (4096 bytes), target
3584 bytes sits exactly at the boundary (4096 = 3584 + 512) and shrink is
refused; target 3072 bytes is more than one sector below and shrink is
allowed. -/
theorem can_shrink_boundary_witness :
    can_shrink 0 7 512 3584 = false ∧ can_shrink 0 7 512 3072 = true :=
  ⟨(can_shrink_boundary 0 7 512 3584 (by decide)).2.2 (by decide),
   ((can_shrink_boundary 0 7 512 3072 (by decide)).1).mpr (by decide)⟩

/-- C8: for every minimum block count, block size and safety margin, the
planned target block count is at least the minimum: the margin blocks are
only ever added. -/
theorem target_blocks_ge_min (min_blocks safety_margin_bytes block_size : Nat)
    (_h : 0 < block_size) :
    min_blocks ≤ target_blocks min_blocks safety_margin_bytes block_size :=
  Nat.le_add_right _ _

/-- C8 witness: instance at the spec's example numbers. -/
theorem target_blocks_ge_min_witness :
    0 < 4096 ∧ 251648 ≤ target_blocks 251648 104857600 4096 :=
  ⟨by decide, target_blocks_ge_min 251648 104857600 4096 (by decide)⟩

/-- C9: `resize_filesystem` with blocks `0` or `None` issues the
no-argument `resize2fs` (resize to the enclosing partition), and only a
non-zero block count is passed through as an explicit size. -/
theorem resize_filesystem_cmd_spec (part_dev : String) :
    resize_filesystem_cmd part_dev (some 0) = "sudo resize2fs " ++ part_dev ∧
    resize_filesystem_cmd part_dev none = "sudo resize2fs " ++ part_dev ∧
    ∀ b : Nat, b ≠ 0 →
      resize_filesystem_cmd part_dev (some b) =
        "sudo resize2fs " ++ part_dev ++ " " ++ toString b := by
  refine ⟨rfl, rfl, fun b hb => ?_⟩
  simp [resize_filesystem_cmd, hb]

/-- C9 witness: concrete device and block count. -/
theorem resize_filesystem_cmd_spec_witness :
    resize_filesystem_cmd "/dev/loop0p2" (some 0) = "sudo resize2fs /dev/loop0p2" ∧
    resize_filesystem_cmd "/dev/loop0p2" (some 277248) =
      "sudo resize2fs /dev/loop0p2 277248" :=
  ⟨(resize_filesystem_cmd_spec "/dev/loop0p2").1,
   (resize_filesystem_cmd_spec "/dev/loop0p2").2.2 277248 (by decide)⟩

/-- C10: a stripped input of `"3"`, `"q"` or `"Q"` terminates the menu
with exit status 0 and neither the layout nor the resize action runs;
any input whose stripped form is none of `"1"`, `"2"`, `"3"`, `"q"`,
`"Q"` merely re-prompts (the loop continues on the remaining inputs). -/
theorem menu_loop_quit_and_reprompt :
    (∀ (s : String) (rest : List String),
      pyStrip s = "3" ∨ pyStrip s = "q" ∨ pyStrip s = "Q" →
        menu_loop (s :: rest) = MenuOutcome.exitZero) ∧
    (∀ (s : String) (rest : List String),
      pyStrip s ≠ "1" → pyStrip s ≠ "2" → pyStrip s ≠ "3" →
      pyStrip s ≠ "q" → pyStrip s ≠ "Q" →
        menu_loop (s :: rest) = menu_loop rest) := by
  constructor
  · intro s rest hq
    have h1 : pyStrip s ≠ "1" := by rcases hq with h | h | h <;> simp [h]
    have h2 : pyStrip s ≠ "2" := by rcases hq with h | h | h <;> simp [h]
    simp [menu_loop, h1, h2, hq]
  · intro s rest n1 n2 n3 nq nQ
    simp [menu_loop, n1, n2, n3, nq, nQ]

/-- C10 witness: `" q "` (whitespace-padded) quits with status 0, and an
invalid input `"x"` re-prompts, after which `"3"` quits. -/
theorem menu_loop_quit_and_reprompt_witness :
    menu_loop [" q ", "2"] = MenuOutcome.exitZero ∧
    menu_loop ["x", "3"] = menu_loop ["3"] :=
  ⟨menu_loop_quit_and_reprompt.1 " q " ["2"] (Or.inr (Or.inl (by decide))),
   menu_loop_quit_and_reprompt.2 "x" ["3"]
     (by decide) (by decide) (by decide) (by decide) (by decide)⟩

/-- Helper: painting a full bar of blanks over its whole range yields a
bar entirely filled with the digit. -/
theorem paintFrom_full (d c : Char) :
    ∀ (n i right : Nat), i + n ≤ right →
      paintFrom 0 right d i (List.replicate n c) = List.replicate n d := by
  intro n
  induction n with
  | zero => intro i right _; rfl
  | succ m ih =>
    intro i right hle
    simp only [List.replicate_succ, paintFrom]
    rw [if_pos ⟨Nat.zero_le i, by omega⟩, ih (i + 1) right (by omega)]

/-- C7: with zero parsed partitions the layout renderer returns the
"no partitions" message path (before any division is attempted), and with
a single partition `(n, 0, E)` spanning the whole image every one of the
60 bar characters is the digit of `n % 10`. -/
theorem display_image_layout_bar_cases :
    display_image_layout_bar [] 60 = none ∧
    ∀ (n E : Nat),
      display_image_layout_bar [(n, 0, E)] 60 =
        some (List.replicate 60 (Nat.digitChar (n % 10))) := by
  constructor
  · rfl
  · intro n E
    have hdiv : (E + 1) * 60 / (E + 1) = 60 :=
      Nat.mul_div_cancel_left 60 (Nat.succ_pos E)
    simp only [display_image_layout_bar, List.isEmpty_cons, Bool.false_eq_true,
      if_false, List.foldl_cons, List.foldl_nil, List.map_cons, List.map_nil,
      paintPartition, Nat.zero_max, Nat.zero_mul, Nat.zero_div, Nat.zero_add,
      hdiv]
    rw [show ((0 : Nat) + 1) ⊔ 60 = 60 by decide, show (60 : Nat) ⊓ 60 = 60 by decide]
    exact congrArg some (paintFrom_full _ _ 60 0 60 (by omega))

/-! ### Lemmas about the fdisk-line matcher (for C6) -/

/-- An ASCII digit is not regex whitespace. -/
theorem isWS_of_digit (c : Char) (h : isDigitCh c = true) : isWS c = false := by
  simp only [isDigitCh, decide_eq_true_eq] at h
  simp only [isWS, decide_eq_false_iff_not]
  omega

/-- An ASCII digit is not a slash. -/
theorem digit_ne_slash (c : Char) (h : isDigitCh c = true) : c ≠ '/' := by
  intro he; rw [he] at h; exact absurd h (by decide)

/-- An ASCII digit is not a star. -/
theorem digit_ne_star (c : Char) (h : isDigitCh c = true) : c ≠ '*' := by
  intro he; rw [he] at h; exact absurd h (by decide)

theorem takeRun_cons_true (p : Char → Bool) (c : Char) (cs : List Char)
    (h : p c = true) :
    takeRun p (c :: cs) = (c :: (takeRun p cs).1, (takeRun p cs).2) := by
  simp [takeRun, h]

theorem takeRun_cons_false (p : Char → Bool) (c : Char) (cs : List Char)
    (h : p c = false) :
    takeRun p (c :: cs) = ([], c :: cs) := by
  simp [takeRun, h]

/-- A maximal run consumes exactly a block of `p`-characters when the
remainder starts with a non-`p` character (or is empty). -/
theorem takeRun_append_stop (p : Char → Bool) (xs ys : List Char)
    (hall : ∀ c ∈ xs, p c = true)
    (hstop : ∀ c cs, ys = c :: cs → p c = false) :
    takeRun p (xs ++ ys) = (xs, ys) := by
  induction xs with
  | nil =>
    rw [List.nil_append]
    cases ys with
    | nil => rfl
    | cons c cs => exact takeRun_cons_false p c cs (hstop c cs rfl)
  | cons x xs ih =>
    rw [List.cons_append,
        takeRun_cons_true p x _ (hall x (List.mem_cons_self x xs)),
        ih (fun c hc => hall c (List.mem_cons_of_mem x hc))]

theorem reSearch_cons_of_none (lit : List Char) (c : Char) (cs : List Char)
    (h : matchAt lit (c :: cs) = none) :
    reSearch lit (c :: cs) = reSearch lit cs := by
  simp [reSearch, h]

theorem reSearch_cons_of_some (lit : List Char) (c : Char) (cs : List Char)
    (r : List Char × List Char) (h : matchAt lit (c :: cs) = some r) :
    reSearch lit (c :: cs) = some r := by
  simp [reSearch, h]

theorem matchAt_ne_head (a : Char) (lit : List Char) (c : Char) (cs : List Char)
    (h : c ≠ a) : matchAt (a :: lit) (c :: cs) = none := by
  simp [matchAt, matchLit, h]

/-- The pattern literal starts with `/`, so the search skips any block of
slash-free characters. -/
theorem reSearch_skip (lit : List Char) (xs ys : List Char)
    (h : ∀ c ∈ xs, c ≠ '/') :
    reSearch ('/' :: lit) (xs ++ ys) = reSearch ('/' :: lit) ys := by
  induction xs with
  | nil => rw [List.nil_append]
  | cons x xs ih =>
    rw [List.cons_append,
        reSearch_cons_of_none _ _ _ (matchAt_ne_head _ _ _ _ (h x (List.mem_cons_self x xs))),
        ih (fun c hc => h c (List.mem_cons_of_mem x hc))]

theorem matchLit_self (lit rest : List Char) : matchLit lit (lit ++ rest) = some rest := by
  induction lit with
  | nil => rfl
  | cons l ls ih => simp [matchLit, ih]

theorem matchAt_after_lit (lit rest : List Char) :
    matchAt lit (lit ++ rest) = matchTail rest := by
  unfold matchAt
  rw [matchLit_self]

/-- The two digit groups are captured exactly when the text continues
`<digits> <digits><non-digit-or-end>`. -/
theorem captureGroups_eq (d1 d2 tail : List Char)
    (h1 : d1 ≠ []) (ha : ∀ c ∈ d1, isDigitCh c = true)
    (h2 : d2 ≠ []) (hb : ∀ c ∈ d2, isDigitCh c = true)
    (ht : ∀ c cs, tail = c :: cs → isDigitCh c = false) :
    captureGroups (d1 ++ (' ' :: (d2 ++ tail))) = some (d1, d2) := by
  obtain ⟨b, d2', rfl⟩ := List.exists_cons_of_ne_nil h2
  have hr1 : takeRun isDigitCh (d1 ++ (' ' :: ((b :: d2') ++ tail))) =
      (d1, ' ' :: ((b :: d2') ++ tail)) :=
    takeRun_append_stop _ _ _ ha (fun c cs h => by cases h; decide)
  have hr2 : takeRun isWS (' ' :: ((b :: d2') ++ tail)) = ([' '], (b :: d2') ++ tail) := by
    rw [List.cons_append, takeRun_cons_true _ _ _ (by decide),
        takeRun_cons_false _ _ _ (isWS_of_digit b (hb b (List.mem_cons_self b d2')))]
  have hr3 : takeRun isDigitCh ((b :: d2') ++ tail) = (b :: d2', tail) :=
    takeRun_append_stop _ _ _ hb ht
  unfold captureGroups
  rw [hr1, hr2, hr3]
  simp [List.length_eq_zero, h1]

/-- A full `\s+\*?\s+(\d+)\s+(\d+)` match on a column-aligned fdisk tail. -/
theorem matchTail_entry (d1 d2 tail : List Char)
    (h1 : d1 ≠ []) (ha : ∀ c ∈ d1, isDigitCh c = true)
    (h2 : d2 ≠ []) (hb : ∀ c ∈ d2, isDigitCh c = true)
    (ht : ∀ c cs, tail = c :: cs → isDigitCh c = false) :
    matchTail (' ' :: (' ' :: (' ' :: (d1 ++ (' ' :: (d2 ++ tail)))))) = some (d1, d2) := by
  obtain ⟨a, d1', rfl⟩ := List.exists_cons_of_ne_nil h1
  have hws : takeRun isWS (' ' :: (' ' :: (' ' :: ((a :: d1') ++ (' ' :: (d2 ++ tail)))))) =
      ([' ', ' ', ' '], (a :: d1') ++ (' ' :: (d2 ++ tail))) := by
    rw [List.cons_append, takeRun_cons_true _ _ _ (by decide),
        takeRun_cons_true _ _ _ (by decide), takeRun_cons_true _ _ _ (by decide),
        takeRun_cons_false _ _ _ (isWS_of_digit a (ha a (List.mem_cons_self a d1')))]
  unfold matchTail
  rw [hws]
  show matchTailAux [' ', ' ', ' '] (a :: (d1' ++ (' ' :: (d2 ++ tail)))) = some (a :: d1', d2)
  simp only [matchTailAux]
  rw [if_neg (digit_ne_star a (ha a (List.mem_cons_self a d1')))]
  rw [if_pos (by decide : 2 ≤ ([' ', ' ', ' '] : List Char).length)]
  exact captureGroups_eq (a :: d1') d2 tail (by simp) ha h2 hb ht

/-- Searching for the p1 pattern in a listing whose first line is
partition 11's: the whole p11 line is skipped (the literal `p1` inside
`p11` is not followed by whitespace) and p1's own line matches. -/
theorem search_p1_in_11First (s1 e1 s11 e11 : List Char)
    (hs1 : s1 ≠ []) (hd1 : ∀ c ∈ s1, isDigitCh c = true)
    (he1 : e1 ≠ []) (hde1 : ∀ c ∈ e1, isDigitCh c = true)
    (hd11 : ∀ c ∈ s11, isDigitCh c = true)
    (hde11 : ∀ c ∈ e11, isDigitCh c = true) :
    reSearch ['/', 'd', 'e', 'v', '/', 'l', 'o', 'o', 'p', '0', 'p', '1']
      (listing11First s1 e1 s11 e11) = some (s1, e1) := by
  simp only [listing11First, line_p11, line_p1, List.cons_append, List.append_assoc,
    List.nil_append]
  iterate 16
    refine (reSearch_cons_of_none _ _ _ ?_).trans ?_
    rfl
  rw [reSearch_skip _ s11 _ (fun c hc => digit_ne_slash c (hd11 c hc))]
  refine (reSearch_cons_of_none _ _ _ ?_).trans ?_
  · rfl
  rw [reSearch_skip _ e11 _ (fun c hc => digit_ne_slash c (hde11 c hc))]
  refine (reSearch_cons_of_none _ _ _ ?_).trans ?_
  · rfl
  exact reSearch_cons_of_some _ _ _ _
    ((matchAt_after_lit ['/', 'd', 'e', 'v', '/', 'l', 'o', 'o', 'p', '0', 'p', '1'] _).trans
      (matchTail_entry s1 e1 ['\n'] hs1 hd1 he1 hde1 (fun c cs h => by cases h; decide)))

/-- Searching for the p11 pattern in the same listing matches its first
line directly. -/
theorem search_p11_in_11First (s1 e1 s11 e11 : List Char)
    (hs11 : s11 ≠ []) (hd11 : ∀ c ∈ s11, isDigitCh c = true)
    (he11 : e11 ≠ []) (hde11 : ∀ c ∈ e11, isDigitCh c = true) :
    reSearch ['/', 'd', 'e', 'v', '/', 'l', 'o', 'o', 'p', '0', 'p', '1', '1']
      (listing11First s1 e1 s11 e11) = some (s11, e11) := by
  simp only [listing11First, line_p11, line_p1, List.cons_append, List.append_assoc,
    List.nil_append]
  exact reSearch_cons_of_some _ _ _ _
    ((matchAt_after_lit ['/', 'd', 'e', 'v', '/', 'l', 'o', 'o', 'p', '0', 'p', '1', '1'] _).trans
      (matchTail_entry s11 e11 _ hs11 hd11 he11 hde11 (fun c cs h => by cases h; decide)))

/-- Searching for the p1 pattern in the natural-order listing matches the
first line directly. -/
theorem search_p1_in_1First (s1 e1 s11 e11 : List Char)
    (hs1 : s1 ≠ []) (hd1 : ∀ c ∈ s1, isDigitCh c = true)
    (he1 : e1 ≠ []) (hde1 : ∀ c ∈ e1, isDigitCh c = true) :
    reSearch ['/', 'd', 'e', 'v', '/', 'l', 'o', 'o', 'p', '0', 'p', '1']
      (listing1First s1 e1 s11 e11) = some (s1, e1) := by
  simp only [listing1First, line_p11, line_p1, List.cons_append, List.append_assoc,
    List.nil_append]
  exact reSearch_cons_of_some _ _ _ _
    ((matchAt_after_lit ['/', 'd', 'e', 'v', '/', 'l', 'o', 'o', 'p', '0', 'p', '1'] _).trans
      (matchTail_entry s1 e1 _ hs1 hd1 he1 hde1 (fun c cs h => by cases h; decide)))

/-- Searching for the p11 pattern in the natural-order listing skips the
whole p1 line and matches p11's. -/
theorem search_p11_in_1First (s1 e1 s11 e11 : List Char)
    (hd1 : ∀ c ∈ s1, isDigitCh c = true)
    (hde1 : ∀ c ∈ e1, isDigitCh c = true)
    (hs11 : s11 ≠ []) (hd11 : ∀ c ∈ s11, isDigitCh c = true)
    (he11 : e11 ≠ []) (hde11 : ∀ c ∈ e11, isDigitCh c = true) :
    reSearch ['/', 'd', 'e', 'v', '/', 'l', 'o', 'o', 'p', '0', 'p', '1', '1']
      (listing1First s1 e1 s11 e11) = some (s11, e11) := by
  simp only [listing1First, line_p11, line_p1, List.cons_append, List.append_assoc,
    List.nil_append]
  iterate 15
    refine (reSearch_cons_of_none _ _ _ ?_).trans ?_
    rfl
  rw [reSearch_skip _ s1 _ (fun c hc => digit_ne_slash c (hd1 c hc))]
  refine (reSearch_cons_of_none _ _ _ ?_).trans ?_
  · rfl
  rw [reSearch_skip _ e1 _ (fun c hc => digit_ne_slash c (hde1 c hc))]
  refine (reSearch_cons_of_none _ _ _ ?_).trans ?_
  · rfl
  exact reSearch_cons_of_some _ _ _ _
    ((matchAt_after_lit ['/', 'd', 'e', 'v', '/', 'l', 'o', 'o', 'p', '0', 'p', '1', '1'] _).trans
      (matchTail_entry s11 e11 ['\n'] hs11 hd11 he11 hde11 (fun c cs h => by cases h; decide)))

/-- C6: on a listing containing both partition 1 and partition 11 (in
either order, arbitrary digit strings as bounds), `get_partition_start`
returns exactly the requested partition's bounds — partition 1's query
never matches partition 11's line because the pattern requires whitespace
immediately after the partition number. -/
theorem get_partition_start_no_collision (s1 e1 s11 e11 : List Char)
    (hs1 : s1 ≠ []) (hd1 : ∀ c ∈ s1, isDigitCh c = true)
    (he1 : e1 ≠ []) (hde1 : ∀ c ∈ e1, isDigitCh c = true)
    (hs11 : s11 ≠ []) (hd11 : ∀ c ∈ s11, isDigitCh c = true)
    (he11 : e11 ≠ []) (hde11 : ∀ c ∈ e11, isDigitCh c = true) :
    get_partition_start "/dev/loop0" 1 (String.mk (listing11First s1 e1 s11 e11)) =
      some (digitsToNat s1, digitsToNat e1) ∧
    get_partition_start "/dev/loop0" 11 (String.mk (listing11First s1 e1 s11 e11)) =
      some (digitsToNat s11, digitsToNat e11) ∧
    get_partition_start "/dev/loop0" 1 (String.mk (listing1First s1 e1 s11 e11)) =
      some (digitsToNat s1, digitsToNat e1) ∧
    get_partition_start "/dev/loop0" 11 (String.mk (listing1First s1 e1 s11 e11)) =
      some (digitsToNat s11, digitsToNat e11) := by
  have hp1 : ("/dev/loop0" ++ "p" ++ toString (1 : Nat)).toList =
      ['/', 'd', 'e', 'v', '/', 'l', 'o', 'o', 'p', '0', 'p', '1'] := by decide
  have hp11 : ("/dev/loop0" ++ "p" ++ toString (11 : Nat)).toList =
      ['/', 'd', 'e', 'v', '/', 'l', 'o', 'o', 'p', '0', 'p', '1', '1'] := by decide
  refine ⟨?_, ?_, ?_, ?_⟩
  · unfold get_partition_start
    rw [hp1, show (String.mk (listing11First s1 e1 s11 e11)).toList =
          listing11First s1 e1 s11 e11 from rfl,
        search_p1_in_11First s1 e1 s11 e11 hs1 hd1 he1 hde1 hd11 hde11]
  · unfold get_partition_start
    rw [hp11, show (String.mk (listing11First s1 e1 s11 e11)).toList =
          listing11First s1 e1 s11 e11 from rfl,
        search_p11_in_11First s1 e1 s11 e11 hs11 hd11 he11 hde11]
  · unfold get_partition_start
    rw [hp1, show (String.mk (listing1First s1 e1 s11 e11)).toList =
          listing1First s1 e1 s11 e11 from rfl,
        search_p1_in_1First s1 e1 s11 e11 hs1 hd1 he1 hde1]
  · unfold get_partition_start
    rw [hp11, show (String.mk (listing1First s1 e1 s11 e11)).toList =
          listing1First s1 e1 s11 e11 from rfl,
        search_p11_in_1First s1 e1 s11 e11 hd1 hde1 hs11 hd11 he11 hde11]

/-- C6 witness: a concrete listing with partitions 11 (bounds 8192-9000)
and 1 (bounds 2048-4095), partition 11's line first. -/
theorem get_partition_start_no_collision_witness :
    get_partition_start "/dev/loop0" 1
        (String.mk (listing11First ['2', '0', '4', '8'] ['4', '0', '9', '5']
          ['8', '1', '9', '2'] ['9', '0', '0', '0'])) = some (2048, 4095) ∧
    get_partition_start "/dev/loop0" 11
        (String.mk (listing11First ['2', '0', '4', '8'] ['4', '0', '9', '5']
          ['8', '1', '9', '2'] ['9', '0', '0', '0'])) = some (8192, 9000) := by
  have h := get_partition_start_no_collision
    ['2', '0', '4', '8'] ['4', '0', '9', '5'] ['8', '1', '9', '2'] ['9', '0', '0', '0']
    (by decide) (by decide) (by decide) (by decide)
    (by decide) (by decide) (by decide) (by decide)
  exact ⟨h.1, h.2.1⟩

/-! ### Lemmas about the orchestration model (for C3, C4, C5) -/

/-- A `try/finally` whose cleanup is a succeeding detach: result of the
body, trace of the body plus the detach event. -/
theorem protect_ok_cleanup {α : Type} (body : M α) (dev : String) (t : List Event) :
    protect body (detachLoop dev (Except.ok ())) t =
      ((body t).1, (body t).2 ++ [Event.detach dev]) := by
  rcases hbt : body t with ⟨r, t1⟩
  unfold protect detachLoop bindM liftE emit
  rw [hbt]
  cases r <;> rfl

theorem emitsOnly_liftE {α : Type} (r : Except Err α) (P : Event → Bool) :
    EmitsOnly (liftE r) P :=
  fun t => ⟨[], by simp [liftE], by simp⟩

theorem emitsOnly_pureM {α : Type} (a : α) (P : Event → Bool) :
    EmitsOnly (pureM a) P :=
  fun t => ⟨[], by simp [pureM], by simp⟩

theorem emitsOnly_emit (ev : Event) (P : Event → Bool) (h : P ev = true) :
    EmitsOnly (emit ev) P :=
  fun t => ⟨[ev], by simp [emit], by simp [h]⟩

theorem emitsOnly_bindM {α β : Type} (m : M α) (f : α → M β) (P : Event → Bool)
    (hm : EmitsOnly m P) (hf : ∀ a, EmitsOnly (f a) P) :
    EmitsOnly (bindM m f) P := by
  intro t
  obtain ⟨ex1, he1, hp1⟩ := hm t
  unfold bindM
  rcases hmt : m t with ⟨r, t1⟩
  rw [hmt] at he1
  simp only at he1
  cases r with
  | error e => exact ⟨ex1, by simpa using he1, hp1⟩
  | ok a =>
    obtain ⟨ex2, he2, hp2⟩ := hf a t1
    refine ⟨ex1 ++ ex2, ?_, ?_⟩
    · simp only
      rw [he2, he1, List.append_assoc]
    · intro e he
      rcases List.mem_append.mp he with h | h
      · exact hp1 e h
      · exact hp2 e h

theorem emitsOnly_protect {α : Type} (body : M α) (cleanup : M Unit) (P : Event → Bool)
    (hb : EmitsOnly body P) (hc : EmitsOnly cleanup P) :
    EmitsOnly (protect body cleanup) P := by
  intro t
  obtain ⟨ex1, he1, hp1⟩ := hb t
  unfold protect
  rcases hbt : body t with ⟨r, t1⟩
  rw [hbt] at he1
  simp only at he1
  obtain ⟨ex2, he2, hp2⟩ := hc t1
  have hmem : ∀ e ∈ ex1 ++ ex2, P e = true := by
    intro e he
    rcases List.mem_append.mp he with h | h
    · exact hp1 e h
    · exact hp2 e h
  cases r with
  | ok a =>
    rcases hct : cleanup t1 with ⟨r2, t2⟩
    rw [hct] at he2
    simp only at he2
    cases r2 <;>
      exact ⟨ex1 ++ ex2, by dsimp only; rw [hct]; simp [he2, he1, List.append_assoc], hmem⟩
  | error e =>
    rcases hct : cleanup t1 with ⟨r2, t2⟩
    rw [hct] at he2
    simp only at he2
    cases r2 <;>
      exact ⟨ex1 ++ ex2, by dsimp only; rw [hct]; simp [he2, he1, List.append_assoc], hmem⟩

/-- The `try` body of `main` emits only resize events, never an attach or
a detach. -/
theorem mainBody_emitsOnly (env : Env) (loop_dev : String) :
    EmitsOnly (mainBody env loop_dev) nonLoopEvent := by
  unfold mainBody
  refine emitsOnly_bindM _ _ _ (emitsOnly_liftE _ _) ?_
  intro part_nums
  split
  · exact emitsOnly_liftE _ _
  · refine emitsOnly_bindM _ _ _ (emitsOnly_liftE _ _) fun _ => ?_
    refine emitsOnly_bindM _ _ _ (emitsOnly_liftE _ _) fun _ => ?_
    refine emitsOnly_bindM _ _ _ (emitsOnly_liftE _ _) fun _ => ?_
    refine emitsOnly_bindM _ _ _ (emitsOnly_liftE _ _) fun min_blocks => ?_
    refine emitsOnly_bindM _ _ _ (emitsOnly_liftE _ _) fun block_size => ?_
    refine emitsOnly_bindM _ _ _ (emitsOnly_liftE _ _) fun se0 => ?_
    refine emitsOnly_bindM _ _ _ (emitsOnly_liftE _ _) fun ss0 => ?_
    split
    · refine emitsOnly_bindM _ _ _ (emitsOnly_emit _ _ rfl) fun _ => ?_
      refine emitsOnly_bindM _ _ _ (emitsOnly_liftE _ _) fun _ => ?_
      refine emitsOnly_bindM _ _ _ (emitsOnly_liftE _ _) fun se1 => ?_
      refine emitsOnly_bindM _ _ _ (emitsOnly_liftE _ _) fun ss1 => ?_
      refine emitsOnly_bindM _ _ _ (emitsOnly_emit _ _ rfl) fun _ => ?_
      refine emitsOnly_bindM _ _ _ (emitsOnly_liftE _ _) fun _ => ?_
      exact emitsOnly_pureM _ _
    · exact emitsOnly_pureM _ _

/-- The final layout display only ever appends events to the trace. -/
theorem display_emitsOnly (env : Env) :
    EmitsOnly (display_layout_m env) (fun _ => true) := by
  unfold display_layout_m attachLoop detachLoop
  refine emitsOnly_bindM _ _ _ ?_ fun dev => ?_
  · refine emitsOnly_bindM _ _ _ (emitsOnly_liftE _ _) fun _ => ?_
    refine emitsOnly_bindM _ _ _ (emitsOnly_emit _ _ rfl) fun _ => ?_
    exact emitsOnly_pureM _ _
  · refine emitsOnly_protect _ _ _ ?_ ?_
    · refine emitsOnly_bindM _ _ _ (emitsOnly_liftE _ _) fun _ => ?_
      refine emitsOnly_bindM _ _ _ (emitsOnly_liftE _ _) fun _ => ?_
      exact emitsOnly_pureM _ _
    · refine emitsOnly_bindM _ _ _ (emitsOnly_liftE _ _) fun _ => ?_
      exact emitsOnly_emit _ _ rfl

/-- Non-loop events leave the attached-device stack unchanged. -/
theorem foldl_attachedStep_nonloop (ex : List Event)
    (h : ∀ e ∈ ex, nonLoopEvent e = true) (s : List String) :
    List.foldl attachedStep s ex = s := by
  induction ex generalizing s with
  | nil => rfl
  | cons e ex ih =>
    have he : nonLoopEvent e = true := h e (List.mem_cons_self e ex)
    have hstep : attachedStep s e = s := by
      cases e <;> simp_all [attachedStep, nonLoopEvent]
    rw [List.foldl_cons, hstep, ih (fun e' h' => h e' (List.mem_cons_of_mem e h'))]

/-- An event already in the trace stays in the trace of any
further computation. -/
theorem mem_trace_mono {α : Type} (m : M α) (P : Event → Bool)
    (hm : EmitsOnly m P) (t : List Event) (ev : Event) (h : ev ∈ t) :
    ev ∈ (m t).2 := by
  obtain ⟨ex, hex, -⟩ := hm t
  rw [hex]
  exact List.mem_append_left _ h

/-- C5: when the shrink decision is false, `main` returns successfully
having emitted no filesystem-resize, partition-resize or truncate
command; the only events are the attach and the matching `finally`
detach, so the image file is untouched and the loop device released.
In particular a second run on an already-shrunk image (where
`can_shrink` is false) leaves the file size unchanged. -/
theorem no_shrink_early_success (env : Env) (d1 : String) (part_nums : List Nat)
    (mb bs s0 e0 ss0 : Nat)
    (h1 : env.attach1R = Except.ok d1)
    (h2 : env.partNumsR = Except.ok part_nums)
    (h2e : part_nums.isEmpty = false)
    (h3 : env.wait1R = Except.ok ())
    (h4 : env.fsTypeR = Except.ok ())
    (h5 : env.fsckR = Except.ok ())
    (h6 : env.minBlocksR = Except.ok mb)
    (h7 : env.blockSizeR = Except.ok bs)
    (h8 : env.partStart1R = Except.ok (s0, e0))
    (h9 : env.sectorSize1R = Except.ok ss0)
    (hns : can_shrink s0 e0 ss0 (target_blocks mb (SAFETY_MB * 1024 * 1024) bs * bs) = false)
    (h10 : env.detach1R = Except.ok ()) :
    main_m env [] = (Except.ok (), [Event.attach d1, Event.detach d1]) := by
  unfold main_m mainBody attachLoop detachLoop
  simp [bindM, liftE, emit, pureM, protect, h1, h2, h2e, h3, h4, h5, h6, h7, h8, h9,
    hns, h10]

/-- C5 witness: concrete already-shrunk image (current bytes equal target
bytes exactly): the run succeeds with only attach and detach events. -/
theorem no_shrink_early_success_witness :
    main_m envNoShrink [] =
      (Except.ok (), [Event.attach "/dev/loop0", Event.detach "/dev/loop0"]) :=
  no_shrink_early_success envNoShrink "/dev/loop0" [2] 251648 4096 2048 2220031 512
    rfl rfl rfl rfl rfl rfl rfl rfl rfl rfl (by decide) rfl

/-- C3: on a successful run the byte size passed to `truncate` is exactly
`startSector * sectorSize + targetBlocks * blockSize`, where
`startSector` and `sectorSize` are the values re-read AFTER the final
reattach (`env.partStart3R` / `env.sectorSize3R`) — the earlier reads
(`s0`, `s1`, `ss0`, `ss1`) are quantified separately and do not appear in
the truncated size. -/
theorem truncate_size_reread (env : Env) (d1 d2 : String) (part_nums : List Nat)
    (mb bs s0 e0 ss0 s1 e1 ss1 s2 e2 ss2 : Nat)
    (h1 : env.attach1R = Except.ok d1)
    (h2 : env.partNumsR = Except.ok part_nums)
    (h2e : part_nums.isEmpty = false)
    (h3 : env.wait1R = Except.ok ())
    (h4 : env.fsTypeR = Except.ok ())
    (h5 : env.fsckR = Except.ok ())
    (h6 : env.minBlocksR = Except.ok mb)
    (h7 : env.blockSizeR = Except.ok bs)
    (h8 : env.partStart1R = Except.ok (s0, e0))
    (h9 : env.sectorSize1R = Except.ok ss0)
    (hcs : can_shrink s0 e0 ss0 (target_blocks mb (SAFETY_MB * 1024 * 1024) bs * bs) = true)
    (h10 : env.resizeFsR = Except.ok ())
    (h11 : env.partStart2R = Except.ok (s1, e1))
    (h12 : env.sectorSize2R = Except.ok ss1)
    (h13 : env.resizePartR = Except.ok ())
    (h14 : env.detach1R = Except.ok ())
    (h15 : env.attach2R = Except.ok d2)
    (h16 : env.wait2R = Except.ok ())
    (h17 : env.partStart3R = Except.ok (s2, e2))
    (h18 : env.sectorSize3R = Except.ok ss2)
    (h19 : env.detach2R = Except.ok ()) :
    Event.truncate (s2 * ss2 + target_blocks mb (SAFETY_MB * 1024 * 1024) bs * bs)
      ∈ (main_m env []).2 := by
  unfold main_m mainBody attachLoop detachLoop
  simp only [bindM, liftE, emit, pureM, protect, h1, h2, h2e, h3, h4, h5, h6, h7, h8, h9,
    hcs, h10, h11, h12, h13, h14, h15, h16, h17, h18, h19, Bool.false_eq_true,
    if_false, if_true, List.nil_append, List.cons_append, List.append_nil]
  cases htr : env.truncateR with
  | error e => simp [htr]
  | ok u =>
    simp only [htr]
    exact mem_trace_mono _ _ (display_emitsOnly env) _ _ (by simp)

/-- C3 witness: a fully successful run on the spec's example numbers
truncates to 2048 * 512 + 277248 * 4096 = 1136656384 bytes. -/
theorem truncate_size_reread_witness :
    Event.truncate 1136656384 ∈ (main_m envFull2 []).2 :=
  truncate_size_reread envFull2 "/dev/loop0" "/dev/loop1" [1, 2]
    251648 4096 2048 4200000 512 2048 4200000 512 2048 2220030 512
    rfl rfl rfl rfl rfl rfl rfl rfl rfl rfl (by decide)
    rfl rfl rfl rfl rfl rfl rfl rfl rfl rfl

/-- C4 (counterexample): in `envLeak` every step succeeds up to and
including the reattach, then `wait_for_device` times out (line 307).
That code runs outside any `try/finally`, so the run terminates with
`/dev/loop1` still attached: not every exit path detaches. -/
theorem loop_cleanup_refuted :
    attachedAfter (main_m envLeak []).2 = ["/dev/loop1"] ∧
    attachedAfter (main_m envLeak []).2 ≠ [] := by
  exact ⟨by decide, by decide⟩

/-- C4 (amended): any attached loop device is detached on every exit
path — including every failure inside the first attached segment (the
`try` body, lines 237-296), a failed reattach, a failed truncate and a
failure inside the layout display — PROVIDED the detach calls themselves
succeed and the unprotected steps between the final reattach and the
pre-truncate detach (`wait_for_device`, `get_partition_start`,
`get_sector_size`, lines 307-316) do not fail.  A failure in those steps
ends the run with the device still attached (see the counterexample). -/
theorem loop_cleanup_conditional (env : Env) (p3 : Nat × Nat) (n3 : Nat)
    (hw2 : env.wait2R = Except.ok ())
    (hp3 : env.partStart3R = Except.ok p3)
    (hs3 : env.sectorSize3R = Except.ok n3)
    (hd1 : env.detach1R = Except.ok ())
    (hd2 : env.detach2R = Except.ok ())
    (hd3 : env.detach3R = Except.ok ()) :
    attachedAfter (main_m env []).2 = [] := by
  unfold main_m
  cases ha1 : env.attach1R with
  | error e =>
    simp [attachLoop, bindM, liftE, emit, pureM, ha1, attachedAfter]
  | ok d1 =>
    simp only [attachLoop, bindM, liftE, emit, pureM, ha1, hd1, List.nil_append]
    rw [protect_ok_cleanup]
    obtain ⟨ex, hex, hnl⟩ := mainBody_emitsOnly env d1 [Event.attach d1]
    rw [hex]
    cases hres : (mainBody env d1 [Event.attach d1]).1 with
    | error e =>
      simp [attachedAfter, List.foldl_append, attachedStep,
        foldl_attachedStep_nonloop ex hnl]
    | ok cont =>
      cases cont with
      | none =>
        simp [pureM, attachedAfter, List.foldl_append, attachedStep,
          foldl_attachedStep_nonloop ex hnl]
      | some info =>
        cases ha2 : env.attach2R with
        | error e2 =>
          simp [attachLoop, bindM, liftE, emit, pureM, ha2, attachedAfter,
            List.foldl_append, attachedStep, foldl_attachedStep_nonloop ex hnl]
        | ok d2 =>
          simp only [attachLoop, detachLoop, bindM, liftE, emit, pureM,
            ha2, hw2, hp3, hs3, hd2, List.append_assoc, List.cons_append,
            List.nil_append]
          cases htr : env.truncateR with
          | error e3 =>
            simp [htr, attachedAfter, List.foldl_append, attachedStep,
              foldl_attachedStep_nonloop ex hnl]
          | ok u =>
            simp only [htr]
            unfold display_layout_m
            cases ha3 : env.attach3R with
            | error e4 =>
              simp [attachLoop, bindM, liftE, emit, pureM, ha3, attachedAfter,
                List.foldl_append, attachedStep, foldl_attachedStep_nonloop ex hnl]
            | ok d3 =>
              simp only [attachLoop, bindM, liftE, emit, pureM, ha3, hd3]
              rw [protect_ok_cleanup]
              have hb : ∀ t : List Event,
                  ((bindM (liftE env.sectorSize4R) fun _ =>
                    bindM (liftE env.fdiskR) fun _ => pureM ()) t).2 = t := by
                intro t
                unfold bindM liftE pureM
                cases env.sectorSize4R <;> cases env.fdiskR <;> rfl
              rw [hb]
              simp [attachedAfter, List.foldl_append, attachedStep,
                foldl_attachedStep_nonloop ex hnl]

/-- C4 witness for the amended statement: on a fully successful run the
final trace holds no attached device. -/
theorem loop_cleanup_conditional_witness :
    attachedAfter (main_m envFull []).2 = [] :=
  loop_cleanup_conditional envFull (2048, 2220030) 512 rfl rfl rfl rfl rfl rfl

end Shrenk
